import Mathlib

/-!
Shallow embedding of the blog-cli response-parsing / SEO-scoring engine and of
the publishing helpers (`blog_cli/seo.py`, `blog_cli/image_gen.py`,
`blog_cli/wordpress.py`).

Python strings are modelled as `List Char`; each Python regex used by the code
is translated, pattern by pattern, into an explicit scanning function that
reproduces the backtracking behaviour of that concrete pattern.  Python floats
are modelled as exact rationals (`ℚ`); file-system listings and network calls
are passed in as explicit arguments.
-/

set_option linter.unusedVariables false

namespace BlogCli

/-- Python `str.isspace` / regex `\s` for the ASCII whitespace characters. -/
def pyIsSpace (c : Char) : Bool :=
  c = ' ' || c = '\t' || c = '\n' || c = '\r' || c = '\x0b' || c = '\x0c'

/-- Python `str.lower` (ASCII case folding, which covers the inputs used here). -/
def lowerStr (s : List Char) : List Char := s.map Char.toLower

/-- Source `beginsWith p s` is true when `s` starts with `p`. -/
def beginsWith : List Char → List Char → Bool
  | [], _ => true
  | _ :: _, [] => false
  | a :: as, b :: bs => a == b && beginsWith as bs

/-- Case-insensitive `beginsWith`, for literals matched under `re.IGNORECASE`. -/
def beginsWithCI : List Char → List Char → Bool
  | [], _ => true
  | _ :: _, [] => false
  | a :: as, b :: bs => a.toLower == b.toLower && beginsWithCI as bs

/-- Python's substring containment `needle in hay`. -/
def containsSub (needle : List Char) : List Char → Bool
  | [] => needle.isEmpty
  | c :: rest => beginsWith needle (c :: rest) || containsSub needle rest

/-- First occurrence of `needle` in `hay`, split into the part before and the
part after the occurrence (`none` when absent). -/
def splitAtSub (needle : List Char) : List Char → Option (List Char × List Char)
  | [] => if needle.isEmpty then some ([], []) else none
  | c :: rest =>
    if beginsWith needle (c :: rest) then some ([], (c :: rest).drop needle.length)
    else
      match splitAtSub needle rest with
      | some (b, a) => some (c :: b, a)
      | none => none

/-- Worker for `countSub`; the fuel (one unit per character of `hay`) only
serves structural termination and never runs out, since each step consumes at
least one character of a nonempty needle. -/
def countSubGo (needle : List Char) : Nat → List Char → Nat
  | 0, _ => 0
  | _, [] => 0
  | fuel + 1, c :: rest =>
    if beginsWith needle (c :: rest) then
      countSubGo needle fuel ((c :: rest).drop needle.length) + 1
    else countSubGo needle fuel rest

/-- Python `hay.count(needle)`: non-overlapping occurrences, scanning left to
right; an empty needle yields `length + 1` as in Python. -/
def countSub (needle : List Char) (hay : List Char) : Nat :=
  if needle.isEmpty then hay.length + 1
  else countSubGo needle (hay.length + 1) hay

/-- Worker for `pySplit`: `acc` holds the current word, reversed. -/
def pySplitGo (acc : List Char) : List Char → List (List Char)
  | [] => if acc.isEmpty then [] else [acc.reverse]
  | c :: rest =>
    if pyIsSpace c then
      if acc.isEmpty then pySplitGo [] rest
      else acc.reverse :: pySplitGo [] rest
    else pySplitGo (c :: acc) rest

/-- Python `str.split()` with no argument: split on whitespace runs, dropping
empty pieces. -/
def pySplit (s : List Char) : List (List Char) := pySplitGo [] s

/-- Python `str.strip()`: remove leading and trailing whitespace. -/
def pyStrip (s : List Char) : List Char :=
  ((s.dropWhile pyIsSpace).reverse.dropWhile pyIsSpace).reverse

/-- Python `" ".join(words)`. -/
def joinSpace (ws : List (List Char)) : List Char := List.intercalate [' '] ws

/-- Numeric value of a string of decimal digits (Python `int(...)` on a `\d+`
match). -/
def digitsToNat (ds : List Char) : Nat :=
  ds.foldl (fun n c => n * 10 + (c.toNat - 48)) 0

/-- Match the regex fragment `\s*(.+)` against `s` and return group 1, with
the backtracking Python's engine performs: the whitespace run is shortened
from its maximal length until the next character exists and is not a newline,
and group 1 then extends to the end of that line. -/
def wsDotPlusGo (s : List Char) : Nat → Option (List Char)
  | 0 =>
    match s[0]? with
    | some c => if c ≠ '\n' then some (s.takeWhile (fun x => x ≠ '\n')) else none
    | none => none
  | k + 1 =>
    match s[k + 1]? with
    | some c =>
      if c ≠ '\n' then some ((s.drop (k + 1)).takeWhile (fun x => x ≠ '\n'))
      else wsDotPlusGo s k
    | none => wsDotPlusGo s k

/-- The regex `\s*(.+)` applied at the start of `s` (group 1, or `none`). -/
def wsDotPlus (s : List Char) : Option (List Char) :=
  wsDotPlusGo s (s.takeWhile pyIsSpace).length

/-- Python `re.search(re.escape(marker) + r"\s*(.+)", content)`, group 1:
the first occurrence of the literal `marker` whose tail admits `\s*(.+)`. -/
def searchMarkerLine (marker : List Char) : List Char → Option (List Char)
  | [] => none
  | c :: rest =>
    if beginsWith marker (c :: rest) then
      match wsDotPlus ((c :: rest).drop marker.length) with
      | some g => some g
      | none => searchMarkerLine marker rest
    else searchMarkerLine marker rest

/-- Result of a single SEO check (`seo.py`, class `SEOResult`). -/
structure SEOResult where
  name : String
  passed : Bool
  warning : Bool := false
  detail : String := ""
deriving DecidableEq, Repr

/-- Source `SEOResult.is_fail` (`seo.py` lines 17-19). -/
def SEOResult.is_fail (r : SEOResult) : Bool := !r.passed && !r.warning

/-- The metadata dictionary built by `seo.py _parse_metadata`: each key is
present (`some`) exactly when its regex matched. -/
structure Metadata where
  title : Option (List Char) := none
  keyword : Option (List Char) := none
  meta_description : Option (List Char) := none
  slug : Option (List Char) := none
  article_type : Option (List Char) := none
deriving DecidableEq

/-- Source `seo.py _parse_metadata`: extract the five header fields, each as the
stripped rest-of-line after its bold label. -/
def parse_metadata (content : List Char) : Metadata where
  title := (searchMarkerLine ("**SEO Title (H1):**".data) content).map pyStrip
  keyword := (searchMarkerLine ("**Focus Keyword:**".data) content).map pyStrip
  meta_description := (searchMarkerLine ("**Meta Description:**".data) content).map pyStrip
  slug := (searchMarkerLine ("**URL Slug:**".data) content).map pyStrip
  article_type := (searchMarkerLine ("**Article Type:**".data) content).map pyStrip

/-- Round a rational to the nearest integer, ties to even (Python `round` and
the rounding used by `format`). -/
def roundHalfEven (q : ℚ) : ℤ :=
  let f := ⌊q⌋
  let r := q - f
  if r < 1 / 2 then f
  else if r > 1 / 2 then f + 1
  else if f % 2 = 0 then f else f + 1

/-- Python `f"{q:.1f}"` for the nonnegative rationals produced here. -/
def fmtQ1 (q : ℚ) : String :=
  let n := roundHalfEven (q * 10)
  toString (n / 10) ++ "." ++ toString (n % 10)

/-- Python `f"{q:.0f}"` for the nonnegative rationals produced here. -/
def fmtQ0 (q : ℚ) : String := toString (roundHalfEven q)

/-- Worker for `commaFmt` over the reversed digit list. -/
def commaRevGo : Nat → List Char → List Char
  | _, [] => []
  | 3, d :: ds => ',' :: d :: commaRevGo 1 ds
  | k, d :: ds => d :: commaRevGo (k + 1) ds

/-- Python `f"{n:,}"`: decimal digits with thousands separators. -/
def commaFmt (n : Nat) : String :=
  String.mk ((commaRevGo 0 (toString n).data.reverse).reverse)

/-- Source `seo.py _check_keyword_in_title`. -/
def _check_keyword_in_title (metadata : Metadata) (keyword : List Char) : SEOResult :=
  let title := metadata.title.getD []
  let first_60 := lowerStr (title.take 60)
  let kw_lower := lowerStr keyword
  if containsSub kw_lower first_60 then
    { name := "Focus keyword in title (within first 60 chars)", passed := true }
  else if containsSub kw_lower (lowerStr title) then
    { name := "Focus keyword in title", passed := false, warning := true,
      detail := "keyword found but not within first 60 characters" }
  else
    { name := "Focus keyword in title", passed := false,
      detail := "keyword not found in title" }

/-- Source `seo.py _check_keyword_in_meta`. -/
def _check_keyword_in_meta (metadata : Metadata) (keyword : List Char) : SEOResult :=
  let meta := metadata.meta_description.getD []
  if containsSub (lowerStr keyword) (lowerStr meta) then
    { name := "Focus keyword in meta description (exact match)", passed := true }
  else
    { name := "Focus keyword in meta description", passed := false,
      detail := "exact-match keyword not found" }

/-- Source `seo.py _check_meta_length`. -/
def _check_meta_length (metadata : Metadata) : SEOResult :=
  let meta := metadata.meta_description.getD []
  let length := meta.length
  if 150 ≤ length ∧ length ≤ 160 then
    { name := "Meta description length: " ++ toString length ++ " characters", passed := true }
  else if (140 ≤ length ∧ length < 150) ∨ (160 < length ∧ length ≤ 170) then
    { name := "Meta description length: " ++ toString length ++ " characters",
      passed := false, warning := true, detail := "target is 150-160 characters" }
  else
    { name := "Meta description length: " ++ toString length ++ " characters",
      passed := false, detail := "target is 150-160 characters" }

/-- Source `seo.py _check_keyword_in_first_paragraph`. -/
def _check_keyword_in_first_paragraph (blog_body keyword : List Char) : SEOResult :=
  let words := pySplit blog_body
  let first_150_words := lowerStr (joinSpace (words.take 150))
  if containsSub (lowerStr keyword) first_150_words then
    { name := "Focus keyword in first paragraph", passed := true }
  else
    { name := "Focus keyword in first paragraph", passed := false,
      detail := "keyword not found in first 150 words" }

/-- Source `seo.py _check_keyword_in_slug`.  The Python comparison
`len(overlap) >= len(kw_words) * 0.6` is expressed as
`10 * overlap ≥ 6 * card`, which agrees with the float comparison for every
set size (an integer is at distance ≥ 1/5 from `0.6 * n` unless `0.6 * n` is
itself that integer, which dwarfs the float error of `0.6`). -/
def _check_keyword_in_slug (metadata : Metadata) (keyword : List Char) : SEOResult :=
  let slug := metadata.slug.getD []
  let kw_slug := (lowerStr keyword).map (fun c => if c = ' ' then '-' else c)
  let kw_words := (pySplit (lowerStr keyword)).toFinset
  let slug_words := (pySplit ((lowerStr slug).map (fun c => if c = '-' then ' ' else c))).toFinset
  if containsSub kw_slug (lowerStr slug) then
    { name := "Focus keyword in URL slug", passed := true }
  else if 10 * (kw_words ∩ slug_words).card ≥ 6 * kw_words.card then
    { name := "Focus keyword in URL slug", passed := true,
      detail := "close variation found" }
  else
    { name := "Focus keyword in URL slug", passed := false, warning := true,
      detail := "keyword or close variation not found in slug" }

/-- Source `kw_words = keyword.lower().split()` in `seo.py _check_keyword_density`. -/
def kwWordsOf (keyword : List Char) : List (List Char) := pySplit (lowerStr keyword)

/-- Source `exact_count = text_lower.count(keyword.lower())` in
`seo.py _check_keyword_density`. -/
def exactCount (blog_body keyword : List Char) : Nat :=
  countSub (lowerStr keyword) (lowerStr blog_body)

/-- Source `variation_count` in `seo.py _check_keyword_density`: slide a window of
`len(kw_words) + 1` consecutive words and count windows containing every
keyword word but not the exact keyword.  `List.range` receives
`len(words) - len(kw_words) + 1` clamped at zero, as Python's `range` does
with a non-positive bound. -/
def variationCount (blog_body keyword : List Char) : Nat :=
  let words := pySplit (lowerStr blog_body)
  let kw_words := kwWordsOf keyword
  if kw_words.length > 1 then
    ((List.range (words.length + 1 - kw_words.length)).filter (fun i =>
      let window := joinSpace ((words.drop i).take (kw_words.length + 1))
      !containsSub (lowerStr keyword) window &&
        kw_words.all (fun w => containsSub w window))).length
  else 0

/-- Source `word_count = len(text_lower.split())` in `seo.py _check_keyword_density`. -/
def totalBodyWords (blog_body : List Char) : Nat := (pySplit (lowerStr blog_body)).length

/-- Source `density = (total_instances * kw_word_count) / word_count * 100` in
`seo.py _check_keyword_density`, as an exact rational. -/
def densityValue (blog_body keyword : List Char) : ℚ :=
  (((exactCount blog_body keyword + variationCount blog_body keyword) *
      (kwWordsOf keyword).length : ℕ) : ℚ) / (totalBodyWords blog_body : ℕ) * 100

/-- Source `seo.py _check_keyword_density`: the check result together with
`exact_count` and `total_instances`. -/
def _check_keyword_density (blog_body keyword : List Char) : SEOResult × Nat × Nat :=
  let word_count := totalBodyWords blog_body
  if word_count = 0 then
    ({ name := "Keyword density", passed := false, detail := "no content found" }, 0, 0)
  else
    let exact_count := exactCount blog_body keyword
    let total_instances := exact_count + variationCount blog_body keyword
    let kw_word_count := (kwWordsOf keyword).length
    let density := densityValue blog_body keyword
    if 1 ≤ density ∧ density ≤ 2 then
      ({ name := "Keyword density: " ++ fmtQ1 density ++ "% (target: 1-2%)",
         passed := true }, exact_count, total_instances)
    else if 4 / 5 ≤ density ∧ density < 1 then
      let deficit := max 1 (roundHalfEven ((1 - density) * word_count / kw_word_count))
      ({ name := "Keyword density: " ++ fmtQ1 density ++ "% (target: 1-2%)",
         passed := false, warning := true,
         detail := "consider adding " ++ toString deficit ++ " more instance" ++
           (if deficit > 1 then "s" else "") }, exact_count, total_instances)
    else if 2 < density ∧ density ≤ 5 / 2 then
      ({ name := "Keyword density: " ++ fmtQ1 density ++ "% (target: 1-2%)",
         passed := false, warning := true,
         detail := "slightly high, consider reducing" }, exact_count, total_instances)
    else
      ({ name := "Keyword density: " ++ fmtQ1 density ++ "% (target: 1-2%)",
         passed := false,
         detail := (if density < 1 then "too low" else "too high") },
       exact_count, total_instances)

/-- Source `seo.py _check_exact_match_ratio`. -/
def _check_exact_match_ratio (blog_body keyword : List Char)
    (exact_count total_count : Nat) : SEOResult :=
  if total_count = 0 then
    { name := "Exact match ratio", passed := false, warning := true,
      detail := "no keyword instances found" }
  else
    let ratio : ℚ := ((exact_count : ℕ) : ℚ) / ((total_count : ℕ) : ℚ) * 100
    if ratio ≥ 40 then
      { name := "Exact match ratio: " ++ fmtQ0 ratio ++ "% (target: 40%+)", passed := true }
    else
      { name := "Exact match ratio: " ++ fmtQ0 ratio ++ "% (target: 40%+)",
        passed := false, warning := true,
        detail := "consider using more exact-match keyword instances" }

/-- Source `seo.py _check_subheading_keywords`. -/
def _check_subheading_keywords (headings : List (List Char)) (keyword : List Char) :
    SEOResult :=
  let kw_lower := lowerStr keyword
  let kw_words := (pySplit kw_lower).toFinset
  let match_count := (headings.filter (fun heading =>
    let heading_lower := lowerStr heading
    containsSub kw_lower heading_lower ||
      ((kw_words ∩ (pySplit heading_lower).toFinset).card ≥
        max 1 (kw_words.card / 2)))).length
  let total := headings.length
  if match_count ≥ 2 then
    { name := "Keyword in subheadings: found in " ++ toString match_count ++ " of " ++
        toString total ++ " H2/H3 tags", passed := true }
  else if match_count = 1 then
    { name := "Keyword in subheadings: found in " ++ toString match_count ++ " of " ++
        toString total ++ " H2/H3 tags", passed := false, warning := true,
      detail := "target is 2+ subheadings" }
  else
    { name := "Keyword in subheadings: not found in any H2/H3 tags", passed := false,
      detail := "add keyword to at least 2 subheadings" }

/-- First `some` produced by `f` along a list. -/
def firstSome {α β : Type} (f : α → Option β) : List α → Option β
  | [] => none
  | x :: xs => match f x with | some y => some y | none => firstSome f xs

/-- Generic `re.finditer` loop: collect `(group, rest)` matches, resuming each
scan at the previous match's end and otherwise advancing one character. -/
def collectMatches (m : List Char → Option (List Char × List Char)) :
    Nat → List Char → List (List Char)
  | 0, _ => []
  | _, [] => []
  | fuel + 1, c :: rest =>
    match m (c :: rest) with
    | some (g, r) => g :: collectMatches m fuel r
    | none => collectMatches m fuel rest

/-- Generic counting variant of `collectMatches` (`len(re.findall(...))`). -/
def countMatches (m : List Char → Option (List Char)) : Nat → List Char → Nat
  | 0, _ => 0
  | _, [] => 0
  | fuel + 1, c :: rest =>
    match m (c :: rest) with
    | some r => countMatches m fuel r + 1
    | none => countMatches m fuel rest

/-- Backtracking choices of the fragment `\s*\n`: the suffixes starting just
after each newline of the leading whitespace run, ordered from the last
newline (the greedy first choice) to the first. -/
def nlStarts (s : List Char) : List (List Char) :=
  let run := s.takeWhile pyIsSpace
  (((List.range run.length).filter (fun i => run[i]? = some '\n')).reverse).map
    (fun i => s.drop (i + 1))

/-- Header part of `#\s*VISUAL FORMAT:?\s*FULL BLOG POST` (IGNORECASE) at the
start of `s`, returning the suffix after `FULL BLOG POST`. -/
def visualHeaderAt (s : List Char) : Option (List Char) :=
  match s with
  | '#' :: r =>
    let t := r.dropWhile pyIsSpace
    if beginsWithCI ("VISUAL FORMAT".data) t then
      let u := t.drop 13
      let u' := if beginsWith (":".data) u then u.drop 1 else u
      let v := u'.dropWhile pyIsSpace
      if beginsWithCI ("FULL BLOG POST".data) v then some (v.drop 14)
      else none
    else none
  | _ => none

/-- The lookahead `(?=\n---\n|\n#\s*HTML FORMAT)` (IGNORECASE) of the
`VISUAL FORMAT` pattern, tested at the current position. -/
def visualTermAt (s : List Char) : Bool :=
  beginsWith ("\n---\n".data) s ||
    (match s with
     | '\n' :: '#' :: t => beginsWithCI ("HTML FORMAT".data) (t.dropWhile pyIsSpace)
     | _ => false)

/-- Lazy group `(.*?)` of the `VISUAL FORMAT` pattern: prefix before the first
terminator position, `none` when no terminator occurs. -/
def visualGroup : List Char → Option (List Char)
  | [] => none
  | c :: rest =>
    if visualTermAt (c :: rest) then some []
    else (visualGroup rest).map (fun g => c :: g)

/-- Python `re.search` of `#\s*VISUAL FORMAT:?\s*FULL BLOG POST\s*\n(.*?)(?=\n---\n|\n#\s*HTML FORMAT)`
(DOTALL, IGNORECASE), group 1: the first start where the header, some newline
of the following whitespace run, and a later terminator all match. -/
def searchVisual : List Char → Option (List Char)
  | [] => none
  | c :: rest =>
    match visualHeaderAt (c :: rest) with
    | some w =>
      match firstSome visualGroup (nlStarts w) with
      | some g => some g
      | none => searchVisual rest
    | none => searchVisual rest

/-- The lookahead `(?=\n#\s*HTML FORMAT)` (case-sensitive) of the fallback
body pattern. -/
def dashTermAt (s : List Char) : Bool :=
  match s with
  | '\n' :: '#' :: t => beginsWith ("HTML FORMAT".data) (t.dropWhile pyIsSpace)
  | _ => false

/-- Lazy group of the fallback pattern, with the rest at the terminator. -/
def dashGroup : List Char → Option (List Char × List Char)
  | [] => none
  | c :: rest =>
    if dashTermAt (c :: rest) then some ([], c :: rest)
    else (dashGroup rest).map (fun p => (c :: p.1, p.2))

/-- Python `re.finditer(r"---\s*\n(.*?)(?=\n#\s*HTML FORMAT)", s, re.DOTALL)`:
groups of the non-overlapping matches, each scan resuming at the previous
match's end (the lookahead position). -/
def dashMatches : Nat → List Char → List (List Char)
  | 0, _ => []
  | _, [] => []
  | fuel + 1, c :: rest =>
    if beginsWith ("---".data) (c :: rest) then
      match firstSome dashGroup (nlStarts ((c :: rest).drop 3)) with
      | some (g, r) => g :: dashMatches fuel r
      | none => dashMatches fuel rest
    else dashMatches fuel rest

/-- Source `seo.py _extract_blog_body`: the `VISUAL FORMAT` section, else the second
dash-delimited section preceding an `HTML FORMAT` header, else the whole
input. -/
def _extract_blog_body (content : List Char) : List Char :=
  match searchVisual content with
  | some g => pyStrip g
  | none =>
    let ms := dashMatches (content.length + 1) content
    if h : ms.length ≥ 2 then pyStrip (ms.get ⟨1, by omega⟩) else content

/-- Match the regex fragment `\s+(.+)` (group and rest after it), with the
backtracking over the whitespace run; at least one whitespace character must
be consumed. -/
def wsPlusDotGo (s : List Char) : Nat → Option (List Char × List Char)
  | 0 => none
  | j + 1 =>
    match s[j + 1]? with
    | some c =>
      if c ≠ '\n' then
        some ((s.drop (j + 1)).takeWhile (fun x => x ≠ '\n'),
              (s.drop (j + 1)).dropWhile (fun x => x ≠ '\n'))
      else wsPlusDotGo s j
    | none => wsPlusDotGo s j

/-- The regex fragment `\s+(.+)` applied at the start of `s`. -/
def wsPlusDot (s : List Char) : Option (List Char × List Char) :=
  wsPlusDotGo s (s.takeWhile pyIsSpace).length

/-- One match of `^#{2,3}\s+(.+)$` at a line start: two or three hashes (a
longer hash run fails, as the regex then finds no whitespace), then `\s+(.+)`. -/
def mdHeadingAt (s : List Char) : Option (List Char × List Char) :=
  let hashes := (s.takeWhile (fun c => c = '#')).length
  if hashes = 2 ∨ hashes = 3 then wsPlusDot (s.drop hashes)
  else none

/-- Python `re.findall(r"^#{2,3}\s+(.+)$", body, re.MULTILINE)`: scan tracking line
starts, resuming after each match. -/
def mdHeadings : Nat → Bool → List Char → List (List Char)
  | 0, _, _ => []
  | _, _, [] => []
  | fuel + 1, lineStart, c :: rest =>
    if lineStart then
      match mdHeadingAt (c :: rest) with
      | some (g, r) => g :: mdHeadings fuel false r
      | none => mdHeadings fuel (c = '\n') rest
    else mdHeadings fuel (c = '\n') rest

/-- Closing part of `<h[23][^>]*>(.*?)</h[23]>`: group up to the first
`</h2>`/`</h3>` (IGNORECASE) with no newline in between. -/
def htmlHeadingClose : List Char → Option (List Char × List Char)
  | [] => none
  | c :: rest =>
    if beginsWithCI ("</h2>".data) (c :: rest) || beginsWithCI ("</h3>".data) (c :: rest) then
      some ([], (c :: rest).drop 5)
    else if c = '\n' then none
    else (htmlHeadingClose rest).map (fun p => (c :: p.1, p.2))

/-- One match of `<h[23][^>]*>(.*?)</h[23]>` (IGNORECASE, no DOTALL). -/
def htmlHeadingAt (s : List Char) : Option (List Char × List Char) :=
  match s with
  | a :: b :: n :: t =>
    if a = '<' && b.toLower = 'h' && (n = '2' || n = '3') then
      let attrs := t.takeWhile (fun c => c ≠ '>')
      match t.drop attrs.length with
      | '>' :: u => htmlHeadingClose u
      | _ => none
    else none
  | _ => none

/-- Source `seo.py _extract_headings`: markdown `##`/`###` headings of the body,
then HTML `<h2>`/`<h3>` headings of the whole content. -/
def _extract_headings (content : List Char) : List (List Char) :=
  let blog_body := _extract_blog_body content
  mdHeadings (blog_body.length + 1) true blog_body ++
    collectMatches htmlHeadingAt (content.length + 1) content

/-- Closing part of `<!--.*?-->` (no DOTALL): the comment must close before
the next newline. -/
def commentClose : List Char → Option (List Char)
  | [] => none
  | c :: rest =>
    if beginsWith ("-->".data) (c :: rest) then some ((c :: rest).drop 3)
    else if c = '\n' then none
    else commentClose rest

/-- Python `re.sub(r"<!--.*?-->", "", s)`. -/
def removeComments : Nat → List Char → List Char
  | 0, s => s
  | _, [] => []
  | fuel + 1, c :: rest =>
    if beginsWith ("<!--".data) (c :: rest) then
      match commentClose ((c :: rest).drop 4) with
      | some r => removeComments fuel r
      | none => c :: removeComments fuel rest
    else c :: removeComments fuel rest

/-- Source `seo.py _check_word_count`. -/
def _check_word_count (blog_body : List Char) : SEOResult :=
  let stripped := blog_body.filter (fun c =>
    !(c = '#' || c = '*' || c = '_' || c = Char.ofNat 96 || c = '[' || c = ']' ||
      c = '(' || c = ')'))
  let clean := removeComments (stripped.length + 1) stripped
  let count := ((pySplit clean).filter (fun w => !(pyStrip w).isEmpty)).length
  if 1200 ≤ count ∧ count ≤ 2000 then
    { name := "Word count: " ++ commaFmt count ++ " words", passed := true }
  else if (1000 ≤ count ∧ count < 1200) ∨ (2000 < count ∧ count ≤ 2200) then
    { name := "Word count: " ++ commaFmt count ++ " words", passed := false,
      warning := true, detail := "target: 1,200-2,000 words" }
  else
    { name := "Word count: " ++ commaFmt count ++ " words", passed := false,
      detail := "target: 1,200-2,000 words" }

/-- A Python regex `["\']` character class member. -/
def isQuote (c : Char) : Bool := c = '"' || c = Char.ofNat 39

/-- One match of `alt=["\']([^"\']*)["\']` (IGNORECASE). -/
def altAttrAt (s : List Char) : Option (List Char × List Char) :=
  if beginsWithCI ("alt=".data) s then
    match s.drop 4 with
    | q :: t =>
      if isQuote q then
        let g := t.takeWhile (fun c => !isQuote c)
        match t.drop g.length with
        | q2 :: t2 => if isQuote q2 then some (g, t2) else none
        | [] => none
      else none
    | [] => none
  else none

/-- The alternative `##\s*Image` (IGNORECASE) of the image-section lookahead. -/
def imageHdrStart (s : List Char) : Bool :=
  beginsWith ("##".data) s &&
    beginsWithCI ("Image".data) ((s.drop 2).dropWhile pyIsSpace)

/-- Lazy group of `##\s*Image\s*\d.*?\n(.*?)(?=##\s*Image|\n---|\Z)`: prefix
up to the next image header, `\n---`, or the end of input, plus the rest. -/
def imageSectionGroup : List Char → List Char × List Char
  | [] => ([], [])
  | c :: rest =>
    if imageHdrStart (c :: rest) || beginsWith ("\n---".data) (c :: rest) then
      ([], c :: rest)
    else
      let p := imageSectionGroup rest
      (c :: p.1, p.2)

/-- One match of the image-section pattern (DOTALL, IGNORECASE) at the current
position; `.*?\n` runs to the first newline after the digit. -/
def imageSectionAt (s : List Char) : Option (List Char × List Char) :=
  if beginsWith ("##".data) s then
    let t := (s.drop 2).dropWhile pyIsSpace
    if beginsWithCI ("Image".data) t then
      match (t.drop 5).dropWhile pyIsSpace with
      | d :: v =>
        if d.isDigit then
          match splitAtSub ['\n'] v with
          | some (_, afterNl) => some (imageSectionGroup afterNl)
          | none => none
        else none
      | [] => none
    else none
  else none

/-- Source `seo.py _check_image_alt_text`. -/
def _check_image_alt_text (content keyword : List Char) : SEOResult :=
  let alt_texts := collectMatches altAttrAt (content.length + 1) content
  let image_sections := collectMatches imageSectionAt (content.length + 1) content
  let kw_lower := lowerStr keyword
  if alt_texts.any (fun alt => containsSub kw_lower (lowerStr alt)) then
    { name := "Image alt text: exact match found", passed := true }
  else if image_sections.any (fun sec => containsSub kw_lower (lowerStr sec)) then
    { name := "Image alt text: keyword found in image prompts", passed := true }
  else
    { name := "Image alt text: keyword not found", passed := false, warning := true,
      detail := "add exact-match keyword to at least one image alt text" }

/-- The lookahead `(?=\n#{1,2}\s|\n---|\Z)` of the Sources-section pattern,
at a non-end position (the end-of-input alternative is handled by the group
scan itself). -/
def sourcesTermAt (s : List Char) : Bool :=
  beginsWith ("\n---".data) s ||
    (match s with
     | '\n' :: '#' :: '#' :: c :: _ => pyIsSpace c
     | '\n' :: '#' :: c :: _ => pyIsSpace c
     | _ => false)

/-- Lazy group of the Sources-section pattern: prefix before the first
terminator, or everything (the `\Z` alternative). -/
def sourcesGroup : List Char → List Char
  | [] => []
  | c :: rest =>
    if sourcesTermAt (c :: rest) then []
    else c :: sourcesGroup rest

/-- Header part `#{1,3}\s*(?:Sources|References|Bibliography)\s*\n`
(IGNORECASE) at a line start, returning the group-start suffix. -/
def sourcesHdrAt (s : List Char) : Option (List Char) :=
  let hashes := (s.takeWhile (fun c => c = '#')).length
  if 1 ≤ hashes ∧ hashes ≤ 3 then
    let t := (s.drop hashes).dropWhile pyIsSpace
    let word :=
      if beginsWithCI ("Sources".data) t then some 7
      else if beginsWithCI ("References".data) t then some 10
      else if beginsWithCI ("Bibliography".data) t then some 12
      else none
    match word with
    | some n =>
      match nlStarts (t.drop n) with
      | g :: _ => some g
      | [] => none
    | none => none
  else none

/-- Python `re.search` of the Sources-section pattern `(?:^|\n)#{1,3}\s*...` over the
whole content, tracking line starts. -/
def searchSources : Bool → List Char → Option (List Char)
  | _, [] => none
  | lineStart, c :: rest =>
    if lineStart then
      match sourcesHdrAt (c :: rest) with
      | some afterHdr => some (sourcesGroup afterHdr)
      | none => searchSources (c = '\n') rest
    else searchSources (c = '\n') rest

/-- Lazy group of `(?:Sources|References)</h[23]>(.*?)(?:</div>|</section>|\Z)`
(DOTALL, IGNORECASE). -/
def htmlSourcesGroup : List Char → List Char
  | [] => []
  | c :: rest =>
    if beginsWithCI ("</div>".data) (c :: rest) ||
        beginsWithCI ("</section>".data) (c :: rest) then []
    else c :: htmlSourcesGroup rest

/-- One match of the HTML Sources fallback pattern at the current position. -/
def htmlSourcesAt (s : List Char) : Option (List Char) :=
  let word :=
    if beginsWithCI ("Sources".data) s then some 7
    else if beginsWithCI ("References".data) s then some 10
    else none
  match word with
  | some k =>
    let t := s.drop k
    if beginsWithCI ("</h".data) t then
      match t.drop 3 with
      | d :: '>' :: u => if d = '2' || d = '3' then some (htmlSourcesGroup u) else none
      | _ => none
    else none
  | none => none

/-- Python `re.search` of the HTML Sources fallback pattern. -/
def searchHtmlSources : List Char → Option (List Char)
  | [] => none
  | c :: rest =>
    match htmlSourcesAt (c :: rest) with
    | some g => some g
    | none => searchHtmlSources rest

/-- Scan for the first occurrence of `target` on the current line (regex
`.*?x` without DOTALL), returning the rest after it. -/
def lazyToChar (target : Char) : List Char → Option (List Char)
  | [] => none
  | c :: rest =>
    if c = target then some rest
    else if c = '\n' then none else lazyToChar target rest

/-- Scan for the first quote character on the current line. -/
def lazyToQuote : List Char → Option (List Char)
  | [] => none
  | c :: rest =>
    if isQuote c then some rest
    else if c = '\n' then none else lazyToQuote rest

/-- One match of `\[.*?\]\(https?://.*?\)` (no flags). -/
def mdLinkAt (s : List Char) : Option (List Char) :=
  match s with
  | '[' :: t =>
    match lazyToChar ']' t with
    | some ('(' :: v) =>
      let afterScheme :=
        if beginsWith ("https://".data) v then some (v.drop 8)
        else if beginsWith ("http://".data) v then some (v.drop 7)
        else none
      match afterScheme with
      | some x => lazyToChar ')' x
      | none => none
    | _ => none
  | _ => none

/-- One match of `href=["\']https?://.*?["\']` (IGNORECASE). -/
def hrefLinkAt (s : List Char) : Option (List Char) :=
  if beginsWithCI ("href=".data) s then
    match s.drop 5 with
    | q :: t =>
      if isQuote q then
        let afterScheme :=
          if beginsWithCI ("https://".data) t then some (t.drop 8)
          else if beginsWithCI ("http://".data) t then some (t.drop 7)
          else none
        match afterScheme with
        | some x => lazyToQuote x
        | none => none
      else none
    | [] => none
  else none

/-- Source `seo.py _check_sources`. -/
def _check_sources (content : List Char) : SEOResult :=
  let sec :=
    match searchSources true content with
    | some g => some g
    | none => searchHtmlSources content
  match sec with
  | none =>
    { name := "Sources section", passed := false, warning := true,
      detail := "no Sources section detected" }
  | some section_text =>
    let total_links := countMatches mdLinkAt (section_text.length + 1) section_text +
      countMatches hrefLinkAt (section_text.length + 1) section_text
    if total_links ≥ 3 then
      { name := "Sources section: " ++ toString total_links ++ " links found",
        passed := true }
    else
      { name := "Sources section: " ++ toString total_links ++ " links found",
        passed := false, warning := true, detail := "target is at least 3 source links" }

/-- Match a sequence of literal words separated by `\s*` at the current
position. -/
def wordsSeqAt : List (List Char) → List Char → Bool
  | [], _ => true
  | [w], s => beginsWith w s
  | w :: rest, s => beginsWith w s && wordsSeqAt rest ((s.drop w.length).dropWhile pyIsSpace)

/-- Python `re.search` of a `word1\s*word2\s*...` pattern. -/
def searchWordsSeq (ws : List (List Char)) : List Char → Bool
  | [] => false
  | c :: rest => wordsSeqAt ws (c :: rest) || searchWordsSeq ws rest

/-- Source `seo.py _check_internal_links`. -/
def _check_internal_links (content : List Char) : SEOResult :=
  let content_lower := lowerStr content
  let patterns : List (List (List Char)) :=
    [["related".data, "articles".data],
     ["further".data, "reading".data],
     ["internal".data, "links".data],
     ["read".data, "more".data],
     ["you".data, "might".data, "also".data, "like".data],
     ["related".data, "posts".data]]
  if patterns.any (fun p => searchWordsSeq p content_lower) then
    { name := "Internal link section: detected", passed := true }
  else
    { name := "Internal link section: not detected", passed := false, warning := true,
      detail := "Cowork will add this automatically" }

/-- Source `seo.py run_seo_checks`: the full fixed battery of 12 checks, in the order
the source appends them. -/
def run_seo_checks (content keyword : List Char) : List SEOResult :=
  let metadata := parse_metadata content
  let blog_body := _extract_blog_body content
  let headings := _extract_headings content
  let density := _check_keyword_density blog_body keyword
  [_check_keyword_in_title metadata keyword,
   _check_keyword_in_meta metadata keyword,
   _check_meta_length metadata,
   _check_keyword_in_first_paragraph blog_body keyword,
   _check_keyword_in_slug metadata keyword,
   density.1,
   _check_exact_match_ratio blog_body keyword density.2.1 density.2.2,
   _check_subheading_keywords headings keyword,
   _check_image_alt_text content keyword,
   _check_word_count blog_body,
   _check_sources content,
   _check_internal_links content]

/-! ### Lemmas about the check battery -/

/-- Source `strBeginsWith p s`: the string `s` starts with `p`. -/
def strBeginsWith (p s : String) : Bool := beginsWith p.data s.data

theorem beginsWith_append (p q r : List Char) (h : beginsWith p q = true) :
    beginsWith p (q ++ r) = true := by
  induction p generalizing q with
  | nil => rfl
  | cons a as ih =>
    cases q with
    | nil => simp [beginsWith] at h
    | cons b bs =>
      simp only [beginsWith, Bool.and_eq_true, List.cons_append] at h ⊢
      exact ⟨h.1, ih bs h.2⟩

/-- Shape facts for `_check_keyword_in_title`: the name prefix identifying the
check, and the pass/warn flags never both set. -/
theorem chk_title (m : Metadata) (k : List Char) :
    strBeginsWith "Focus keyword in title" (_check_keyword_in_title m k).name = true ∧
    ((_check_keyword_in_title m k).passed && (_check_keyword_in_title m k).warning) = false := by
  constructor <;>
    (unfold _check_keyword_in_title
     dsimp only
     repeat' split
     all_goals decide)

theorem chk_meta (m : Metadata) (k : List Char) :
    strBeginsWith "Focus keyword in meta description" (_check_keyword_in_meta m k).name = true ∧
    ((_check_keyword_in_meta m k).passed && (_check_keyword_in_meta m k).warning) = false := by
  constructor <;>
    (unfold _check_keyword_in_meta
     dsimp only
     repeat' split
     all_goals decide)

theorem chk_meta_length (m : Metadata) :
    strBeginsWith "Meta description length" (_check_meta_length m).name = true ∧
    ((_check_meta_length m).passed && (_check_meta_length m).warning) = false := by
  constructor
  · unfold _check_meta_length
    dsimp only
    repeat' split
    all_goals
      (unfold strBeginsWith
       simp only [String.data_append, List.append_assoc]
       exact beginsWith_append _ _ _ (by decide))
  · unfold _check_meta_length
    dsimp only
    repeat' split
    all_goals rfl

theorem chk_first_para (b k : List Char) :
    strBeginsWith "Focus keyword in first paragraph"
      (_check_keyword_in_first_paragraph b k).name = true ∧
    ((_check_keyword_in_first_paragraph b k).passed &&
      (_check_keyword_in_first_paragraph b k).warning) = false := by
  constructor <;>
    (unfold _check_keyword_in_first_paragraph
     dsimp only
     repeat' split
     all_goals decide)

theorem chk_slug (m : Metadata) (k : List Char) :
    strBeginsWith "Focus keyword in URL slug" (_check_keyword_in_slug m k).name = true ∧
    ((_check_keyword_in_slug m k).passed && (_check_keyword_in_slug m k).warning) = false := by
  constructor <;>
    (unfold _check_keyword_in_slug
     dsimp only
     repeat' split
     all_goals decide)

theorem chk_density (b k : List Char) :
    strBeginsWith "Keyword density" (_check_keyword_density b k).1.name = true ∧
    ((_check_keyword_density b k).1.passed && (_check_keyword_density b k).1.warning) = false := by
  constructor
  · unfold _check_keyword_density
    dsimp only
    repeat' split
    all_goals
      first
      | decide
      | (unfold strBeginsWith
         simp only [String.data_append, List.append_assoc]
         exact beginsWith_append _ _ _ (by decide))
  · unfold _check_keyword_density
    dsimp only
    repeat' split
    all_goals rfl

theorem chk_ratio (b k : List Char) (ec tc : Nat) :
    strBeginsWith "Exact match ratio" (_check_exact_match_ratio b k ec tc).name = true ∧
    ((_check_exact_match_ratio b k ec tc).passed &&
      (_check_exact_match_ratio b k ec tc).warning) = false := by
  constructor
  · unfold _check_exact_match_ratio
    dsimp only
    repeat' split
    all_goals
      first
      | decide
      | (unfold strBeginsWith
         simp only [String.data_append, List.append_assoc]
         exact beginsWith_append _ _ _ (by decide))
  · unfold _check_exact_match_ratio
    dsimp only
    repeat' split
    all_goals rfl

theorem chk_subheadings (hs : List (List Char)) (k : List Char) :
    strBeginsWith "Keyword in subheadings" (_check_subheading_keywords hs k).name = true ∧
    ((_check_subheading_keywords hs k).passed &&
      (_check_subheading_keywords hs k).warning) = false := by
  constructor
  · unfold _check_subheading_keywords
    dsimp only
    repeat' split
    all_goals
      first
      | decide
      | (unfold strBeginsWith
         simp only [String.data_append, List.append_assoc]
         exact beginsWith_append _ _ _ (by decide))
  · unfold _check_subheading_keywords
    dsimp only
    repeat' split
    all_goals rfl

theorem chk_alt (c k : List Char) :
    strBeginsWith "Image alt text" (_check_image_alt_text c k).name = true ∧
    ((_check_image_alt_text c k).passed && (_check_image_alt_text c k).warning) = false := by
  constructor <;>
    (unfold _check_image_alt_text
     dsimp only
     repeat' split
     all_goals decide)

theorem chk_word_count (b : List Char) :
    strBeginsWith "Word count" (_check_word_count b).name = true ∧
    ((_check_word_count b).passed && (_check_word_count b).warning) = false := by
  constructor
  · unfold _check_word_count
    dsimp only
    repeat' split
    all_goals
      (unfold strBeginsWith
       simp only [String.data_append, List.append_assoc]
       exact beginsWith_append _ _ _ (by decide))
  · unfold _check_word_count
    dsimp only
    repeat' split
    all_goals rfl

theorem chk_sources (c : List Char) :
    strBeginsWith "Sources section" (_check_sources c).name = true ∧
    ((_check_sources c).passed && (_check_sources c).warning) = false := by
  constructor
  · unfold _check_sources
    dsimp only
    repeat' split
    all_goals
      first
      | decide
      | (unfold strBeginsWith
         simp only [String.data_append, List.append_assoc]
         exact beginsWith_append _ _ _ (by decide))
  · unfold _check_sources
    dsimp only
    repeat' split
    all_goals rfl

theorem chk_internal (c : List Char) :
    strBeginsWith "Internal link section" (_check_internal_links c).name = true ∧
    ((_check_internal_links c).passed && (_check_internal_links c).warning) = false := by
  constructor <;>
    (unfold _check_internal_links
     dsimp only
     repeat' split
     all_goals decide)

/-- Claim **C1**: for every content string and every keyword — including the empty
document — `run_seo_checks` returns exactly 12 `SEOResult` entries in the
fixed order title, meta keyword, meta length, first paragraph, slug, density,
exact-match ratio, subheadings, image alt text, word count, sources, internal
links (each entry's name carrying its check's identifying prefix); no check is
ever omitted. -/
theorem run_seo_checks_twelve_fixed_order (content keyword : List Char) :
    (run_seo_checks content keyword).length = 12 ∧
    ∃ r₁ r₂ r₃ r₄ r₅ r₆ r₇ r₈ r₉ r₁₀ r₁₁ r₁₂,
      run_seo_checks content keyword =
        [r₁, r₂, r₃, r₄, r₅, r₆, r₇, r₈, r₉, r₁₀, r₁₁, r₁₂] ∧
      strBeginsWith "Focus keyword in title" r₁.name = true ∧
      strBeginsWith "Focus keyword in meta description" r₂.name = true ∧
      strBeginsWith "Meta description length" r₃.name = true ∧
      strBeginsWith "Focus keyword in first paragraph" r₄.name = true ∧
      strBeginsWith "Focus keyword in URL slug" r₅.name = true ∧
      strBeginsWith "Keyword density" r₆.name = true ∧
      strBeginsWith "Exact match ratio" r₇.name = true ∧
      strBeginsWith "Keyword in subheadings" r₈.name = true ∧
      strBeginsWith "Image alt text" r₉.name = true ∧
      strBeginsWith "Word count" r₁₀.name = true ∧
      strBeginsWith "Sources section" r₁₁.name = true ∧
      strBeginsWith "Internal link section" r₁₂.name = true := by
  refine ⟨rfl, _, _, _, _, _, _, _, _, _, _, _, _, rfl,
    (chk_title _ _).1, (chk_meta _ _).1, (chk_meta_length _).1, (chk_first_para _ _).1,
    (chk_slug _ _).1, (chk_density _ _).1, (chk_ratio _ _ _ _).1, (chk_subheadings _ _).1,
    (chk_alt _ _).1, (chk_word_count _).1, (chk_sources _).1, (chk_internal _).1⟩

/-- Claim **C9**: every `SEOResult` produced by `run_seo_checks` never has `passed`
and `warning` both true, so each result is exactly one of pass, warn, or hard
fail, and `is_fail` holds exactly in the hard-fail case. -/
theorem run_seo_checks_three_valued (content keyword : List Char) (r : SEOResult)
    (h : r ∈ run_seo_checks content keyword) :
    ¬(r.passed = true ∧ r.warning = true) ∧
    (r.is_fail = true ↔ (r.passed = false ∧ r.warning = false)) := by
  have hb : (r.passed && r.warning) = false := by
    simp only [run_seo_checks, List.mem_cons, List.not_mem_nil, or_false] at h
    rcases h with h | h | h | h | h | h | h | h | h | h | h | h <;> subst h
    · exact (chk_title _ _).2
    · exact (chk_meta _ _).2
    · exact (chk_meta_length _).2
    · exact (chk_first_para _ _).2
    · exact (chk_slug _ _).2
    · exact (chk_density _ _).2
    · exact (chk_ratio _ _ _ _).2
    · exact (chk_subheadings _ _).2
    · exact (chk_alt _ _).2
    · exact (chk_word_count _).2
    · exact (chk_sources _).2
    · exact (chk_internal _).2
  constructor
  · intro ⟨h1, h2⟩
    rw [h1, h2] at hb
    simp at hb
  · cases r with
    | mk name passed warning detail =>
      cases passed <;> cases warning <;> simp_all [SEOResult.is_fail]

/-- Witness for C9: the theorem applied to a concrete member of the battery
run on the empty document. -/
theorem run_seo_checks_three_valued_witness :
    ¬((_check_internal_links []).passed = true ∧ (_check_internal_links []).warning = true) ∧
    ((_check_internal_links []).is_fail = true ↔
      ((_check_internal_links []).passed = false ∧ (_check_internal_links []).warning = false)) :=
  run_seo_checks_three_valued [] [] _ (by decide)

/-- Claim **C4** (counterexample): on slug `xyz` and keyword `alpha beta` neither
pass condition holds, yet the check is a warning (`warning = true`,
`is_fail = false`), not the hard failure the claim asserts. -/
theorem slug_check_below_threshold_is_warning :
    (_check_keyword_in_slug (parse_metadata ("**URL Slug:** xyz".data))
        ("alpha beta".data)).passed = false ∧
    (_check_keyword_in_slug (parse_metadata ("**URL Slug:** xyz".data))
        ("alpha beta".data)).warning = true ∧
    (_check_keyword_in_slug (parse_metadata ("**URL Slug:** xyz".data))
        ("alpha beta".data)).is_fail = false := by
  refine ⟨by decide, by decide, by decide⟩

/-- Claim **C4** (amended): the slug check passes exactly when the hyphenated
keyword is a substring of the slug or at least 60 % of the keyword's words
appear among the slug's words; below that threshold it is a *warning*
(`passed = false`, `warning = true`), not a hard failure. -/
theorem slug_check_policy (m : Metadata) (keyword : List Char) :
    ((_check_keyword_in_slug m keyword).passed = true ↔
      (containsSub ((lowerStr keyword).map (fun c => if c = ' ' then '-' else c))
          (lowerStr (m.slug.getD [])) = true ∨
        10 * (((pySplit (lowerStr keyword)).toFinset) ∩
            ((pySplit ((lowerStr (m.slug.getD [])).map
              (fun c => if c = '-' then ' ' else c))).toFinset)).card ≥
          6 * ((pySplit (lowerStr keyword)).toFinset).card)) ∧
    (containsSub ((lowerStr keyword).map (fun c => if c = ' ' then '-' else c))
        (lowerStr (m.slug.getD [])) = false →
      ¬(10 * (((pySplit (lowerStr keyword)).toFinset) ∩
            ((pySplit ((lowerStr (m.slug.getD [])).map
              (fun c => if c = '-' then ' ' else c))).toFinset)).card ≥
          6 * ((pySplit (lowerStr keyword)).toFinset).card) →
      _check_keyword_in_slug m keyword =
        { name := "Focus keyword in URL slug", passed := false, warning := true,
          detail := "keyword or close variation not found in slug" }) := by
  unfold _check_keyword_in_slug
  dsimp only
  constructor
  · split
    · next h => simp [h]
    · split
      · next h h2 => simp [h2]
      · next h h2 => simp [h, h2]
  · intro h1 h2
    simp [h1, h2]

/-- Witness for the amended C4 theorem: the spec's scenario slug passes via
the hyphenated-substring condition, and the below-threshold instance is the
warning record. -/
theorem slug_check_policy_witness :
    (_check_keyword_in_slug (parse_metadata ("**URL Slug:** smart-vending-roi-guide".data))
        ("smart vending ROI".data)).passed = true ∧
    _check_keyword_in_slug (parse_metadata ("**URL Slug:** xyz".data)) ("alpha beta".data) =
      { name := "Focus keyword in URL slug", passed := false, warning := true,
        detail := "keyword or close variation not found in slug" } :=
  ⟨(slug_check_policy _ _).1.mpr (Or.inl (by decide)),
   (slug_check_policy _ _).2 (by decide) (by decide)⟩

/-- Claim **C5** (counterexample): bodies `a x b z` and `a b z w` with keyword
`a b` have the same total word count, strictly more exact occurrences in the
second, yet equal density (a near-variation window of the first body became
an exact match in the second), refuting strict monotonicity. -/
theorem density_not_strictly_monotone :
    exactCount ("a x b z".data) ("a b".data) < exactCount ("a b z w".data) ("a b".data) ∧
    totalBodyWords ("a x b z".data) = totalBodyWords ("a b z w".data) ∧
    ¬(densityValue ("a x b z".data) ("a b".data) <
      densityValue ("a b z w".data) ("a b".data)) := by
  refine ⟨by decide, by decide, ?_⟩
  have h : densityValue ("a x b z".data) ("a b".data) =
      densityValue ("a b z w".data) ("a b".data) := by
    unfold densityValue
    rw [show exactCount ("a x b z".data) ("a b".data) = 0 from by decide,
        show variationCount ("a x b z".data) ("a b".data) = 1 from by decide,
        show exactCount ("a b z w".data) ("a b".data) = 1 from by decide,
        show variationCount ("a b z w".data) ("a b".data) = 0 from by decide,
        show totalBodyWords ("a x b z".data) = 4 from by decide,
        show totalBodyWords ("a b z w".data) = 4 from by decide]
  rw [h]
  exact lt_irrefl _

/-- Claim **C5** (amended): with the total word count and the near-variation count
both held fixed (and a nonempty keyword in a nonempty body), strictly more
exact keyword occurrences give a strictly larger density value. -/
theorem density_strictly_monotone_fixed_variations (keyword b₁ b₂ : List Char)
    (hw : totalBodyWords b₁ = totalBodyWords b₂)
    (hw0 : totalBodyWords b₁ ≠ 0)
    (hv : variationCount b₁ keyword = variationCount b₂ keyword)
    (hkw : (kwWordsOf keyword).length ≠ 0)
    (he : exactCount b₁ keyword < exactCount b₂ keyword) :
    densityValue b₁ keyword < densityValue b₂ keyword := by
  unfold densityValue
  rw [hv, hw]
  have hwpos : (0 : ℚ) < ((totalBodyWords b₂ : ℕ) : ℚ) := by
    exact_mod_cast Nat.pos_of_ne_zero (hw ▸ hw0)
  have hnum : (((exactCount b₁ keyword + variationCount b₂ keyword) *
        (kwWordsOf keyword).length : ℕ) : ℚ) <
      (((exactCount b₂ keyword + variationCount b₂ keyword) *
        (kwWordsOf keyword).length : ℕ) : ℚ) := by
    exact_mod_cast (Nat.mul_lt_mul_right (Nat.pos_of_ne_zero hkw)).mpr (by omega)
  have hdiv := (div_lt_div_iff_of_pos_right hwpos).mpr hnum
  exact mul_lt_mul_of_pos_right hdiv (by norm_num)

/-- Witness for the amended C5 theorem at bodies `a b x y` / `a b a b` and
keyword `a b`. -/
theorem density_strictly_monotone_witness :
    densityValue ("a b x y".data) ("a b".data) < densityValue ("a b a b".data) ("a b".data) :=
  density_strictly_monotone_fixed_variations ("a b".data) ("a b x y".data) ("a b a b".data)
    (by decide) (by decide) (by decide) (by decide) (by decide)

/-! ### `blog_cli/image_gen.py` -/

/-- One extracted image prompt (`image_gen.py parse_image_prompts`). -/
structure ImagePrompt where
  number : Nat
  title : List Char
  prompt : List Char
deriving DecidableEq, Repr

/-- Closing part `(.+?)``` ` of the prompt pattern (DOTALL): scan for the
closing fence, accumulating the (nonempty) group. -/
def scanFenceClose : List Char → Option (List Char × List Char)
  | [] => none
  | c :: rest =>
    if beginsWith ("```".data) (c :: rest) then some ([], (c :: rest).drop 3)
    else (scanFenceClose rest).map (fun p => (c :: p.1, p.2))

/-- Pattern `(.+?)``` `: at least one character, minimally extended to the next
closing fence. -/
def fenceContent : List Char → Option (List Char × List Char)
  | [] => none
  | c :: rest => (scanFenceClose rest).map (fun p => (c :: p.1, p.2))

/-- The fragment ` ```[^\n]*\n(.+?)``` ` reached through the lazy `.*?`: find
the first code fence whose opening line ends in a newline and that has a later
closing fence, retrying from the next character otherwise. -/
def fencedPrompt : Nat → List Char → Option (List Char × List Char)
  | 0, _ => none
  | _, [] => none
  | fuel + 1, c :: rest =>
    if beginsWith ("```".data) (c :: rest) then
      match ((c :: rest).drop 3).dropWhile (fun x => x ≠ '\n') with
      | '\n' :: u =>
        match fenceContent u with
        | some (g, r) => some (g, r)
        | none => fencedPrompt fuel rest
      | _ => fencedPrompt fuel rest
    else fencedPrompt fuel rest

/-- The fragment `\s*(.+?)\n` (DOTALL) at whitespace offset `k`: group 1 runs
from position `k` minimally up to the next newline, which is consumed. -/
def wsLazyNl (s : List Char) (k : Nat) : Option (List Char × List Char) :=
  match s[k]? with
  | none => none
  | some c =>
    match splitAtSub ['\n'] (s.drop (k + 1)) with
    | some (b, a) => some (c :: b, a)
    | none => none

/-- Backtracking of `\s*(.+?)\n`: the whitespace run is consumed greedily and
shortened until the lazy group finds its newline. -/
def wsLazyNlBack (s : List Char) : Nat → Option (List Char × List Char)
  | 0 => wsLazyNl s 0
  | k + 1 =>
    match wsLazyNl s (k + 1) with
    | some r => some r
    | none => wsLazyNlBack s k

/-- Pattern `\s*(.+?)\n` applied at the start of `s`. -/
def titlePart (s : List Char) : Option (List Char × List Char) :=
  wsLazyNlBack s (s.takeWhile pyIsSpace).length

/-- One match of the `parse_image_prompts` pattern
`##\s*Image\s*(\d+):\s*(.+?)\n.*?```[^\n]*\n(.+?)``` ` (DOTALL; `Image` is
case-sensitive in the source pattern) at the current position, returning the
prompt and the rest after the closing fence. -/
def promptAt (s : List Char) : Option (ImagePrompt × List Char) :=
  if beginsWith ("##".data) s then
    let t := (s.drop 2).dropWhile pyIsSpace
    if beginsWith ("Image".data) t then
      let u := (t.drop 5).dropWhile pyIsSpace
      let digits := u.takeWhile Char.isDigit
      if digits.isEmpty then none
      else
        match u.drop digits.length with
        | ':' :: v =>
          match titlePart v with
          | some (ti, afterNl) =>
            match fencedPrompt (afterNl.length + 1) afterNl with
            | some (pr, rest) =>
              some ({ number := digitsToNat digits, title := pyStrip ti,
                      prompt := pyStrip pr }, rest)
            | none => none
          | none => none
        | _ => none
    else none
  else none

/-- Worker for `parse_image_prompts` (`re.finditer` loop). -/
def parseImagePromptsGo : Nat → List Char → List ImagePrompt
  | 0, _ => []
  | _, [] => []
  | fuel + 1, c :: rest =>
    match promptAt (c :: rest) with
    | some (p, r) => p :: parseImagePromptsGo fuel r
    | none => parseImagePromptsGo fuel rest

/-- Source `image_gen.py parse_image_prompts`. -/
def parse_image_prompts (content : List Char) : List ImagePrompt :=
  parseImagePromptsGo (content.length + 1) content

/-- The configuration keys `generate_images` consults (`load_config()` result,
modelled as an explicit read-only record; `config.py DEFAULT_CONFIG` sets
`image_provider` to `auto` and the keys to empty strings). -/
structure ImgConfig where
  gemini_api_key : String := ""
  openai_api_key : String := ""
  image_provider : String := "auto"
deriving DecidableEq, Repr

/-- Observable side effects of a `generate_images` run: running the Gemini or
OpenAI generation path (the code past the credential check) and writing the
manual-fallback `prompts.txt`. -/
inductive ImgEvent
  | geminiRun
  | openaiRun
  | promptsFileWrite
deriving DecidableEq, Repr

/-- Outcome of a `generate_images` call: either a raised error message or the
returned list of file paths, together with the emitted events. -/
structure ImgGenResult where
  outcome : Except String (List String)
  events : List ImgEvent
deriving Repr

/-- Source `image_gen.py _generate_gemini`, with the network portion abstracted as
`oracle` (its raised error or returned path list): raise when no credential is
configured, else run the generation path. -/
def _generate_gemini (config : ImgConfig) (oracle : Except String (List String)) :
    Except String (List String) × List ImgEvent :=
  if config.gemini_api_key = "" then
    (Except.error "Gemini API key not configured. Run: blog --setup", [])
  else (oracle, [ImgEvent.geminiRun])

/-- Source `image_gen.py _generate_openai`, with the network portion abstracted as
`oracle`. -/
def _generate_openai (config : ImgConfig) (oracle : Except String (List String)) :
    Except String (List String) × List ImgEvent :=
  if config.openai_api_key = "" then
    (Except.error "OpenAI API key not configured. Run: blog --setup", [])
  else (oracle, [ImgEvent.openaiRun])

/-- Source `image_gen.py _save_prompts_fallback`: writes the prompts file and returns
the empty path list. -/
def _save_prompts_fallback : Except String (List String) × List ImgEvent :=
  (Except.ok [], [ImgEvent.promptsFileWrite])

/-- Source `image_gen.py generate_images`: resolve the provider (explicit argument,
else the configured `image_provider`), normalise it with `.lower().strip()`,
and dispatch.  `gemini`/`openai` oracles stand for the two network paths. -/
def generate_images (prompts : List ImagePrompt) (slug : String)
    (provider : Option String) (config : ImgConfig)
    (gemini openai : Except String (List String)) : ImgGenResult :=
  let provider := provider.getD config.image_provider
  let provider := String.mk (pyStrip (lowerStr provider.data))
  if provider = "none" then
    { outcome := Except.ok [], events := _save_prompts_fallback.2 }
  else if provider = "gemini" then
    match _generate_gemini config gemini with
    | (Except.error e, ev) => { outcome := Except.error e, events := ev }
    | (Except.ok paths, ev) =>
      if paths = [] ∧ config.openai_api_key ≠ "" then
        match _generate_openai config openai with
        | (Except.error e, ev2) => { outcome := Except.error e, events := ev ++ ev2 }
        | (Except.ok paths2, ev2) => { outcome := Except.ok paths2, events := ev ++ ev2 }
      else { outcome := Except.ok paths, events := ev }
  else if provider = "openai" then
    match _generate_openai config openai with
    | (out, ev) => { outcome := out, events := ev }
  else if provider = "auto" then
    -- try Gemini when its key is configured; exceptions are caught
    let step1 : Option (List String) × List ImgEvent :=
      if config.gemini_api_key ≠ "" then
        match _generate_gemini config gemini with
        | (Except.ok paths, ev) => (if paths ≠ [] then some paths else none, ev)
        | (Except.error _, ev) => (none, ev)
      else (none, [])
    match step1 with
    | (some paths, ev) => { outcome := Except.ok paths, events := ev }
    | (none, ev) =>
      -- try OpenAI when its key is configured; exceptions are caught
      if config.openai_api_key ≠ "" then
        match _generate_openai config openai with
        | (Except.ok paths, ev2) => { outcome := Except.ok paths, events := ev ++ ev2 }
        | (Except.error _, ev2) =>
          { outcome := Except.ok [], events := ev ++ ev2 ++ _save_prompts_fallback.2 }
      else { outcome := Except.ok [], events := ev ++ _save_prompts_fallback.2 }
  else
    { outcome := Except.error ("Unknown image_provider '" ++ provider ++
        "'. Valid values: gemini, openai, none, auto"), events := [] }

/-- Python `re.search(r"image-(\d+)", name)`: the number after the first `image-`
that is followed by at least one digit. -/
def findImageNum : List Char → Option Nat
  | [] => none
  | c :: rest =>
    if beginsWith ("image-".data) (c :: rest) then
      let digits := ((c :: rest).drop 6).takeWhile Char.isDigit
      if digits.isEmpty then findImageNum rest else some (digitsToNat digits)
    else findImageNum rest

/-- The fragment `[^>]*-->`: succeeds exactly when the two characters before
the first `>` are `--`, consuming through that `>`. -/
def closeAfterGt (s : List Char) : Option (List Char) :=
  let m := (s.takeWhile (fun c => c ≠ '>')).length
  if s[m]? = some '>' ∧ 2 ≤ m ∧ s[m - 1]? = some '-' ∧ s[m - 2]? = some '-' then
    some (s.drop (m + 1))
  else none

/-- One match of `<!--\s*IMAGE\s*{num}\b[^>]*-->` (IGNORECASE) at the current
position, returning the matched span and the rest. -/
def mdPlaceholderAt (num : Nat) (s : List Char) : Option (List Char × List Char) :=
  if beginsWith ("<!--".data) s then
    let t := (s.drop 4).dropWhile pyIsSpace
    if beginsWithCI ("IMAGE".data) t then
      let u := (t.drop 5).dropWhile pyIsSpace
      let ds := (toString num).data
      if beginsWith ds u then
        let v := u.drop ds.length
        -- the word boundary after the digits: the next character, if any,
        -- must not be a word character
        if v[0]?.all (fun c => !(c.isAlphanum || c = '_')) then
          match closeAfterGt v with
          | some rest => some (s.take (s.length - rest.length), rest)
          | none => none
        else none
      else none
    else none
  else none

/-- Source `placeholder_pattern.sub(r"\1" + img_md, content, count=1)`: at the first
placeholder match, keep the matched comment (group 1) and insert after it. -/
def subPlaceholderKeep (num : Nat) (ins : List Char) : List Char → List Char
  | [] => []
  | c :: rest =>
    match mdPlaceholderAt num (c :: rest) with
    | some (span, after) => span ++ ins ++ after
    | none => c :: subPlaceholderKeep num ins rest

/-- Source `image_gen.py embed_images_in_markdown`: for each path whose name carries
`image-N`, insert the markdown image reference after the first
`<!-- IMAGE N -->` placeholder comment. -/
def embed_images_in_markdown (content : List Char) (image_paths : List String)
    (slug : String) : List Char :=
  image_paths.foldl (fun content name =>
    match findImageNum name.data with
    | none => content
    | some num =>
      let relative_path := "images/" ++ slug ++ "/" ++ name
      let img_md := "\n\n![Image " ++ toString num ++ "](" ++ relative_path ++ ")\n"
      subPlaceholderKeep num img_md.data content) content

theorem searchMarkerLine_eq_none (marker : List Char) :
    ∀ content, containsSub marker content = false → searchMarkerLine marker content = none := by
  intro content
  induction content with
  | nil => intro _; rfl
  | cons c rest ih =>
    intro h
    simp only [containsSub, Bool.or_eq_false_iff] at h
    unfold searchMarkerLine
    simp [h.1, ih h.2]

/-- Claim **C2** (counterexample): applying the markdown placeholder substitution a
second time with the same image list is *not* a no-op — the placeholder
comment is kept (the substitution replaces group 1 with itself plus the
insertion), so the second pass matches it again. -/
theorem embed_images_not_idempotent :
    embed_images_in_markdown
        (embed_images_in_markdown ("<!-- IMAGE 1 -->".data) ["image-1.png"] "post")
        ["image-1.png"] "post" ≠
      embed_images_in_markdown ("<!-- IMAGE 1 -->".data) ["image-1.png"] "post" := by
  decide

/-- Claim **C2** (amended): the substitution inserts the image markdown after the
placeholder and keeps the placeholder comment, so a second application with
the same image list inserts a duplicate copy right after the placeholder. -/
theorem embed_images_second_pass_duplicates :
    embed_images_in_markdown ("<!-- IMAGE 1 -->".data) ["image-1.png"] "post" =
      ("<!-- IMAGE 1 -->\n\n![Image 1](images/post/image-1.png)\n").data ∧
    embed_images_in_markdown
        (embed_images_in_markdown ("<!-- IMAGE 1 -->".data) ["image-1.png"] "post")
        ["image-1.png"] "post" =
      ("<!-- IMAGE 1 -->\n\n![Image 1](images/post/image-1.png)\n\n\n![Image 1](images/post/image-1.png)\n").data := by
  exact ⟨by decide, by decide⟩

/-- Claim **C6**: the content-parsing operations are total functions of the input
(they are plain Lean functions, so they terminate on every string, matching
the Python code in which no parsing branch raises); a missing metadata label
yields an absent field, and the empty string, pure whitespace, and an
unmatched code fence yield the empty/default results. -/
theorem content_parsing_defensive (content : List Char) :
    (containsSub ("**SEO Title (H1):**".data) content = false →
      (parse_metadata content).title = none) ∧
    (containsSub ("**Focus Keyword:**".data) content = false →
      (parse_metadata content).keyword = none) ∧
    (containsSub ("**Meta Description:**".data) content = false →
      (parse_metadata content).meta_description = none) ∧
    (containsSub ("**URL Slug:**".data) content = false →
      (parse_metadata content).slug = none) ∧
    (containsSub ("**Article Type:**".data) content = false →
      (parse_metadata content).article_type = none) ∧
    parse_metadata [] = {} ∧
    _extract_blog_body [] = [] ∧
    _extract_headings [] = [] ∧
    parse_image_prompts [] = [] ∧
    parse_metadata ("  \n\t ".data) = {} ∧
    _extract_blog_body ("  \n\t ".data) = ("  \n\t ".data) ∧
    _extract_headings ("  \n\t ".data) = [] ∧
    parse_image_prompts ("  \n\t ".data) = [] ∧
    parse_metadata ("```".data) = {} ∧
    _extract_blog_body ("```".data) = ("```".data) ∧
    _extract_headings ("```".data) = [] ∧
    parse_image_prompts ("## Image 1: T\n```\nprompt".data) = [] := by
  refine ⟨?_, ?_, ?_, ?_, ?_, by decide, by decide, by decide, by decide, by decide,
    by decide, by decide, by decide, by decide, by decide, by decide, by decide⟩ <;>
    (intro h
     simp [parse_metadata, searchMarkerLine_eq_none _ _ h])

/-- Witness for C6 at a marker-free document. -/
theorem content_parsing_defensive_witness :
    (parse_metadata ("plain text without labels".data)).slug = none ∧
    parse_image_prompts [] = [] :=
  ⟨(content_parsing_defensive ("plain text without labels".data)).2.2.2.1 (by decide),
   (content_parsing_defensive []).2.2.2.2.2.2.2.2.1⟩

/-- Claim **C7**: under provider policy `auto`, with no gemini credential and an
openai credential the chain attempts openai directly (gemini discovery never
runs); with neither credential it writes the manual-fallback prompts file and
returns the empty result; and the attempted steps always follow the strict
order gemini, openai, fallback. -/
theorem generate_images_auto_chain (prompts : List ImagePrompt) (slug : String)
    (config : ImgConfig) (gemini openai : Except String (List String)) :
    ((config.gemini_api_key = "" ∧ config.openai_api_key ≠ "") →
      ((generate_images prompts slug (some "auto") config gemini openai).events.head? =
          some ImgEvent.openaiRun ∧
        ImgEvent.geminiRun ∉
          (generate_images prompts slug (some "auto") config gemini openai).events)) ∧
    ((config.gemini_api_key = "" ∧ config.openai_api_key = "") →
      generate_images prompts slug (some "auto") config gemini openai =
        { outcome := Except.ok [], events := [ImgEvent.promptsFileWrite] }) ∧
    (generate_images prompts slug (some "auto") config gemini openai).events.Sublist
      [ImgEvent.geminiRun, ImgEvent.openaiRun, ImgEvent.promptsFileWrite] := by
  have hnorm : String.mk (pyStrip (lowerStr ("auto".data))) = "auto" := rfl
  refine ⟨?_, ?_, ?_⟩
  · rintro ⟨hg, ho⟩
    rcases openai with e | p <;>
      simp [generate_images, _generate_gemini, _generate_openai, _save_prompts_fallback,
        hnorm, hg, ho]
  · rintro ⟨hg, ho⟩
    simp [generate_images, _generate_gemini, _generate_openai, _save_prompts_fallback,
      hnorm, hg, ho]
  · by_cases hg : config.gemini_api_key = "" <;>
      by_cases ho : config.openai_api_key = "" <;>
      rcases gemini with ge | gp <;> rcases openai with oe | op <;>
      simp [generate_images, _generate_gemini, _generate_openai, _save_prompts_fallback,
        hnorm, hg, ho] <;>
      first
      | decide
      | (by_cases hgp : gp = [] <;> simp [hgp])

/-- Witness for C7: the two credential scenarios at a concrete configuration. -/
theorem generate_images_auto_chain_witness :
    ((generate_images [] "s" (some "auto")
        { gemini_api_key := "", openai_api_key := "k" }
        (Except.ok ["g"]) (Except.ok ["o"])).events.head? = some ImgEvent.openaiRun ∧
      ImgEvent.geminiRun ∉
        (generate_images [] "s" (some "auto")
          { gemini_api_key := "", openai_api_key := "k" }
          (Except.ok ["g"]) (Except.ok ["o"])).events) ∧
    generate_images [] "s" (some "auto") { } (Except.ok ["g"]) (Except.ok ["o"]) =
      { outcome := Except.ok [], events := [ImgEvent.promptsFileWrite] } :=
  ⟨(generate_images_auto_chain [] "s"
      { gemini_api_key := "", openai_api_key := "k" }
      (Except.ok ["g"]) (Except.ok ["o"])).1 ⟨rfl, by decide⟩,
   (generate_images_auto_chain [] "s" { } (Except.ok ["g"]) (Except.ok ["o"])).2.1
      ⟨rfl, rfl⟩⟩

/-- Claim **C10**: a provider string whose lowercased, trimmed form is none of
`gemini`, `openai`, `none`, `auto` makes `generate_images` raise a
`ValueError` naming the valid values, with no generation attempted and no
fallback prompts file written (no events). -/
theorem generate_images_unknown_provider (prompts : List ImagePrompt) (slug : String)
    (config : ImgConfig) (gemini openai : Except String (List String)) (p : String)
    (h1 : String.mk (pyStrip (lowerStr p.data)) ≠ "gemini")
    (h2 : String.mk (pyStrip (lowerStr p.data)) ≠ "openai")
    (h3 : String.mk (pyStrip (lowerStr p.data)) ≠ "none")
    (h4 : String.mk (pyStrip (lowerStr p.data)) ≠ "auto") :
    generate_images prompts slug (some p) config gemini openai =
      { outcome := Except.error ("Unknown image_provider '" ++
          String.mk (pyStrip (lowerStr p.data)) ++
          "'. Valid values: gemini, openai, none, auto"), events := [] } := by
  unfold generate_images
  simp only [Option.getD]
  rw [if_neg h3, if_neg h1, if_neg h2, if_neg h4]

/-- Witness for C10 at the provider string `" Bogus "`. -/
theorem generate_images_unknown_provider_witness :
    generate_images [] "s" (some " Bogus ") { } (Except.ok []) (Except.ok []) =
      { outcome := Except.error
          "Unknown image_provider 'bogus'. Valid values: gemini, openai, none, auto",
        events := [] } := by
  have h := generate_images_unknown_provider [] "s" { } (Except.ok []) (Except.ok [])
    " Bogus " (by decide) (by decide) (by decide) (by decide)
  exact h

/-! ### `blog_cli/wordpress.py` -/

/-- Python `Path(name).suffix`: the part from the last dot, when that dot is
neither the first character nor the last. -/
def pathSuffix (name : List Char) : List Char :=
  let afterDot := (name.reverse.takeWhile (fun c => c ≠ '.')).length
  if afterDot = name.length then []
  else
    let i := name.length - afterDot - 1
    if i = 0 then [] else if afterDot = 0 then [] else name.drop i

/-- Python's string comparison, by code points. -/
def lexLe : List Char → List Char → Bool
  | [], _ => true
  | _ :: _, [] => false
  | a :: as, b :: bs => if a = b then lexLe as bs else decide (a.toNat < b.toNat)

/-- Stable insertion for `stableSortLe`: an element goes after every earlier
element that compares `le` to it. -/
def insertLe (le : String → String → Bool) (x : String) : List String → List String
  | [] => [x]
  | y :: ys => if le y x then y :: insertLe le x ys else x :: y :: ys

/-- A stable sort (the guarantee Python's `sorted` gives). -/
def stableSortLe (le : String → String → Bool) (xs : List String) : List String :=
  xs.foldl (fun acc x => insertLe le x acc) []

/-- Source `wordpress.py find_local_images`, with the plain-file listing of the
images directory passed explicitly: keep the names whose lower-cased suffix
is an image extension, sorted as Python sorts the paths. -/
def find_local_images (files : List String) : List String :=
  stableSortLe (fun a b => lexLe a.data b.data) (files.filter (fun f =>
    let suffix := lowerStr (pathSuffix f.data)
    suffix = (".png".data) || suffix = (".jpg".data) || suffix = (".jpeg".data) ||
      suffix = (".gif".data) || suffix = (".webp".data)))

/-- The media dictionary `wordpress.py upload_image` returns: `id`, `url`
(the server's `source_url`) and the alt text it was tagged with. -/
structure MediaInfo where
  id : Nat
  url : String
  alt_text : String
deriving DecidableEq, Repr

/-- Greedy backtracking of `[^\]]*\]?\s*[^>]*-->`: the `\]?`, `\s*` and
`[^>]*` pieces are all absorbed by `[^>]*` (none of `]` or whitespace is
`>`), so the match walks the non-`]` prefix from its maximal length downwards
and closes at the first position from which `[^>]*-->` succeeds. -/
def bracketCloseGo (s : List Char) : Nat → Option (List Char)
  | 0 => closeAfterGt s
  | k + 1 =>
    match closeAfterGt (s.drop (k + 1)) with
    | some rest => some rest
    | none => bracketCloseGo s k

/-- Pattern `[^\]]*\]?\s*[^>]*-->` at the start of `s`, returning the rest. -/
def bracketClose (s : List Char) : Option (List Char) :=
  bracketCloseGo s (s.takeWhile (fun c => c ≠ ']')).length

/-- Closing `["\']?\s*-->` of the alt-text group (the optional quote, when
present, must be consumed — leaving it cannot match). -/
def altGroupClose (v : List Char) : Option (List Char) :=
  let v1 :=
    match v with
    | q :: t => if isQuote q then t else v
    | [] => v
  let v2 := v1.dropWhile pyIsSpace
  if beginsWith ("-->".data) v2 then some (v2.drop 3) else none

/-- Greedy backtracking of `([^"\'<>]+)["\']?\s*-->`: the group length walks
down from its maximal value (at least one character). -/
def altGroupGo (u1 : List Char) : Nat → Option (List Char × List Char)
  | 0 => none
  | glen + 1 =>
    match altGroupClose (u1.drop (glen + 1)) with
    | some rest => some (u1.take (glen + 1), rest)
    | none => altGroupGo u1 glen

/-- Pattern `["\']?([^"\'<>]+)...` at whitespace offset `k` of the alt-text value. -/
def altTryAt (t5 : List Char) (k : Nat) : Option (List Char × List Char) :=
  let u := t5.drop k
  let u1 :=
    match u with
    | q :: t => if isQuote q then t else u
    | [] => u
  altGroupGo u1 (u1.takeWhile (fun c => !(isQuote c || c = '<' || c = '>'))).length

/-- Greedy backtracking of the `\s*` before the alt-text value. -/
def altWsGo (t5 : List Char) : Nat → Option (List Char × List Char)
  | 0 => altTryAt t5 0
  | k + 1 =>
    match altTryAt t5 (k + 1) with
    | some r => some r
    | none => altWsGo t5 k

/-- The optional alt-text comment
`\s*<!--\s*Alt\s*text:\s*["\']?([^"\'<>]+)["\']?\s*-->` (IGNORECASE),
returning the group and the rest after the comment. -/
def altCommentAt (s : List Char) : Option (List Char × List Char) :=
  let t := s.dropWhile pyIsSpace
  if beginsWith ("<!--".data) t then
    let t1 := (t.drop 4).dropWhile pyIsSpace
    if beginsWithCI ("Alt".data) t1 then
      let t2 := (t1.drop 3).dropWhile pyIsSpace
      if beginsWithCI ("text:".data) t2 then
        let t5 := t2.drop 5
        altWsGo t5 (t5.takeWhile pyIsSpace).length
      else none
    else none
  else none

/-- One match of `<!--\s*\[?IMAGE\s*(\d+)[^\]]*\]?\s*[^>]*-->` with its
optional alt-text comment (IGNORECASE): `(number, raw alt group, rest)`. -/
def altMapEntryAt (s : List Char) : Option ((Nat × List Char) × List Char) :=
  if beginsWith ("<!--".data) s then
    let t := (s.drop 4).dropWhile pyIsSpace
    let t := if beginsWith ("[".data) t then t.drop 1 else t
    if beginsWithCI ("IMAGE".data) t then
      let u := (t.drop 5).dropWhile pyIsSpace
      let digits := u.takeWhile Char.isDigit
      if digits.isEmpty then none
      else
        match bracketClose (u.drop digits.length) with
        | some rest1 =>
          match altCommentAt rest1 with
          | some (g, rest2) => some ((digitsToNat digits, g), rest2)
          | none => some ((digitsToNat digits, []), rest1)
        | none => none
    else none
  else none

/-- Worker for `_parse_image_alt_texts` (`re.finditer` loop); the stored alt
is the stripped group, empty when the alt comment is absent. -/
def parseAltTextsGo : Nat → List Char → List (Nat × List Char)
  | 0, _ => []
  | _, [] => []
  | fuel + 1, c :: rest =>
    match altMapEntryAt (c :: rest) with
    | some ((n, g), r) => (n, pyStrip g) :: parseAltTextsGo fuel r
    | none => parseAltTextsGo fuel rest

/-- Source `wordpress.py _parse_image_alt_texts`: the dict entries in match order
(a later entry for the same number overwrites an earlier one). -/
def _parse_image_alt_texts (html : List Char) : List (Nat × List Char) :=
  parseAltTextsGo (html.length + 1) html

/-- Source `alt_map.get(idx, default)` with dict-overwrite semantics: the last entry
for the key wins. -/
def altMapGet (m : List (Nat × List Char)) (idx : Nat) (default : List Char) : List Char :=
  match m.reverse.find? (fun e => e.1 == idx) with
  | some e => e.2
  | none => default

/-- One match of `<!--\s*\[?IMAGE\s*{idx}[^\]]*\]?\s*[^>]*-->` followed by the
optional `\s*<!--\s*Alt\s*text:[^>]*-->` (IGNORECASE): rest after the whole
match. -/
def replPlaceholderAt (idx : Nat) (s : List Char) : Option (List Char) :=
  if beginsWith ("<!--".data) s then
    let t := (s.drop 4).dropWhile pyIsSpace
    let t := if beginsWith ("[".data) t then t.drop 1 else t
    if beginsWithCI ("IMAGE".data) t then
      let u := (t.drop 5).dropWhile pyIsSpace
      let ds := (toString idx).data
      if beginsWith ds u then
        match bracketClose (u.drop ds.length) with
        | some rest1 =>
          let t2 := rest1.dropWhile pyIsSpace
          if beginsWith ("<!--".data) t2 then
            let t3 := (t2.drop 4).dropWhile pyIsSpace
            if beginsWithCI ("Alt".data) t3 then
              let t4 := (t3.drop 3).dropWhile pyIsSpace
              if beginsWithCI ("text:".data) t4 then
                match closeAfterGt (t4.drop 5) with
                | some rest2 => some rest2
                | none => some rest1
              else some rest1
            else some rest1
          else some rest1
        | none => none
      else none
    else none
  else none

/-- Source `pattern.sub(img_tag, html, count=1)`: replace the first placeholder
block for `idx` with the tag. -/
def subReplacePlaceholder (idx : Nat) (tag : List Char) : List Char → List Char
  | [] => []
  | c :: rest =>
    match replPlaceholderAt idx (c :: rest) with
    | some after => tag ++ after
    | none => c :: subReplacePlaceholder idx tag rest

/-- The substitution loop of `replace_image_placeholders`: the `i`-th media
item (1-based list position) replaces the first `IMAGE i` placeholder. -/
def replaceLoop (alt_map : List (Nat × List Char)) :
    Nat → List MediaInfo → List Char → List Char
  | _, [], html => html
  | idx, media :: rest, html =>
    let alt := altMapGet alt_map idx media.alt_text.data
    let img_tag := ("<img src=\"".data) ++ media.url.data ++ ("\" alt=\"".data) ++ alt ++
      ("\" style=\"width:100%; height:auto;\" />".data)
    replaceLoop alt_map (idx + 1) rest (subReplacePlaceholder idx img_tag html)

/-- Source `wordpress.py replace_image_placeholders`: the alt map is parsed once from
the incoming html (falling back to the media's own alt text), then each media
item is substituted by its list position. -/
def replace_image_placeholders (html : List Char) (media_list : List MediaInfo) :
    List Char :=
  replaceLoop (_parse_image_alt_texts html) 1 media_list html

/-- The image-upload pairing loop of `publish_to_wordpress` (step 4) and
`upload_images_command`, with the network upload abstracted as an oracle from
(position, file name) to the created media's id and url (`none` models a
failed upload, which is caught and skipped). -/
def uploadImagesLoopGo (slug : String) (alt_map : List (Nat × List Char))
    (upload : Nat → String → Option (Nat × String)) :
    Nat → List String → List MediaInfo
  | _, [] => []
  | idx, f :: rest =>
    let alt := altMapGet alt_map idx
      ((slug.data.map (fun c => if c = '-' then ' ' else c)) ++ (" image ".data) ++
        (toString idx).data)
    match upload idx f with
    | some (mid, url) =>
      { id := mid, url := url, alt_text := String.mk alt } ::
        uploadImagesLoopGo slug alt_map upload (idx + 1) rest
    | none => uploadImagesLoopGo slug alt_map upload (idx + 1) rest

/-- The upload stage: find the local images and upload them in sorted order,
position `i` being the `i`-th found file. -/
def upload_found_images (slug : String) (files : List String) (html : List Char)
    (upload : Nat → String → Option (Nat × String)) : List MediaInfo :=
  uploadImagesLoopGo slug (_parse_image_alt_texts html) upload 1 (find_local_images files)

/-- One match of `(<h2[^>]*>\s*Sources\s*</h2>)` (IGNORECASE): the matched
span and the rest. -/
def sourcesH2At (s : List Char) : Option (List Char × List Char) :=
  if beginsWithCI ("<h2".data) s then
    let t := s.drop 3
    let attrs := t.takeWhile (fun c => c ≠ '>')
    match t.drop attrs.length with
    | '>' :: u =>
      let u1 := u.dropWhile pyIsSpace
      if beginsWithCI ("Sources".data) u1 then
        let u2 := (u1.drop 7).dropWhile pyIsSpace
        if beginsWithCI ("</h2>".data) u2 then
          let rest := u2.drop 5
          some (s.take (s.length - rest.length), rest)
        else none
      else none
    | _ => none
  else none

/-- Source `sources_pattern.sub(links_html + "\n\n" + r"\1", html, count=1)`, or
`none` when the pattern does not occur. -/
def subBeforeSources (ins : List Char) : List Char → Option (List Char)
  | [] => none
  | c :: rest =>
    match sourcesH2At (c :: rest) with
    | some (span, after) => some (ins ++ ("\n\n".data) ++ span ++ after)
    | none => (subBeforeSources ins rest).map (fun r => c :: r)

/-- Source `wordpress.py insert_internal_links`. -/
def insert_internal_links (html links_html : List Char) : List Char :=
  if links_html.isEmpty then html
  else
    match subBeforeSources links_html html with
    | some r => r
    | none => html ++ ("\n\n".data) ++ links_html

set_option maxRecDepth 4000 in
/-- Claim **C3** (counterexample): with only `image-2.png` present, the upload loop
numbers it by its list position (1), so the `IMAGE 1` placeholder — not the
`IMAGE 2` one — receives that image's tag, refuting matching by the number in
the file's name. -/
theorem image_matching_by_position_counterexample :
    replace_image_placeholders
        ("<p>a</p><!-- [IMAGE 1] --><p>b</p><!-- [IMAGE 2] --><p>c</p>".data)
        (upload_found_images "s" ["image-2.png"]
          ("<p>a</p><!-- [IMAGE 1] --><p>b</p><!-- [IMAGE 2] --><p>c</p>".data)
          (fun idx f => some (10 + idx, "https://cdn/" ++ f))) =
      ("<p>a</p><img src=\"https://cdn/image-2.png\" alt=\"\" style=\"width:100%; height:auto;\" /><p>b</p><!-- [IMAGE 2] --><p>c</p>".data) ∧
    replace_image_placeholders
        ("<p>a</p><!-- [IMAGE 1] --><p>b</p><!-- [IMAGE 2] --><p>c</p>".data)
        (upload_found_images "s" ["image-2.png"]
          ("<p>a</p><!-- [IMAGE 1] --><p>b</p><!-- [IMAGE 2] --><p>c</p>".data)
          (fun idx f => some (10 + idx, "https://cdn/" ++ f))) ≠
      ("<p>a</p><!-- [IMAGE 1] --><p>b</p><img src=\"https://cdn/image-2.png\" alt=\"\" style=\"width:100%; height:auto;\" /><p>c</p>".data) := by
  exact ⟨by decide, by decide⟩

set_option maxRecDepth 4000 in
/-- Claim **C3** (amended): upload and placeholder substitution pair each uploaded
image with a placeholder by its 1-based *position in the sorted found-file
list*, which coincides with the number in the file's name exactly when the
names are `image-1`, `image-2`, … with no gaps: with both files present (in
any listing order), each placeholder receives its same-numbered image. -/
theorem image_matching_by_position :
    find_local_images ["image-2.png", "image-1.png", "notes.txt"] =
      ["image-1.png", "image-2.png"] ∧
    replace_image_placeholders
        ("<p>a</p><!-- [IMAGE 1] --><p>b</p><!-- [IMAGE 2] --><p>c</p>".data)
        (upload_found_images "s" ["image-2.png", "image-1.png"]
          ("<p>a</p><!-- [IMAGE 1] --><p>b</p><!-- [IMAGE 2] --><p>c</p>".data)
          (fun idx f => some (10 + idx, "https://cdn/" ++ f))) =
      ("<p>a</p><img src=\"https://cdn/image-1.png\" alt=\"\" style=\"width:100%; height:auto;\" /><p>b</p><img src=\"https://cdn/image-2.png\" alt=\"\" style=\"width:100%; height:auto;\" /><p>c</p>".data) := by
  exact ⟨by decide, by decide⟩

/-- Claim **C8** (counterexample): a Sources heading with attributes and different
casing still matches the (IGNORECASE, `[^>]*`) pattern, so the link block is
inserted before it — not appended at the document end as the claim states. -/
theorem insert_internal_links_attributes_counterexample :
    insert_internal_links ("<p>b</p>\n<h2 class=\"a\">SOURCES</h2>\n<p>l</p>".data)
        ("<h2>More</h2>".data) ≠
      ("<p>b</p>\n<h2 class=\"a\">SOURCES</h2>\n<p>l</p>".data ++ ("\n\n".data) ++
        ("<h2>More</h2>".data)) := by
  decide

/-- Claim **C8** (amended): with no related posts the HTML is returned unchanged;
the link block is inserted immediately before the first `<h2 …>Sources</h2>`
heading, matched case-insensitively and allowing attributes and surrounding
whitespace; only when no such `h2` heading exists (e.g. an `h3` Sources
heading) is the block appended at the document end. -/
theorem insert_internal_links_policy :
    (∀ html : List Char, insert_internal_links html [] = html) ∧
    insert_internal_links ("<p>b</p>\n<h2 class=\"a\">SOURCES</h2>\n<p>l</p>".data)
        ("<h2>More</h2>".data) =
      ("<p>b</p>\n<h2>More</h2>\n\n<h2 class=\"a\">SOURCES</h2>\n<p>l</p>".data) ∧
    insert_internal_links ("<p>b</p><h2>Sources</h2>".data) ("L".data) =
      ("<p>b</p>L\n\n<h2>Sources</h2>".data) ∧
    insert_internal_links ("<h3>Sources</h3>".data) ("L".data) =
      ("<h3>Sources</h3>\n\nL".data) := by
  exact ⟨fun html => rfl, by decide, by decide, by decide⟩

end BlogCli
